import Mathlib

/-!
Shallow embedding of the `fastapi-tasks` repository: the TTL cache of
`src/cache.py` (class `Cache`, the `/products/{product_id}` read path), the
`/notify` handler of `src/notiifcation.py`, and the fixed-window
`RateLimiter` of `src/rate_limiter.py`.  Wall-clock instants
(`datetime.utcnow()` / `datetime.now()`) are modelled as integers passed
explicitly to each operation; a Python value that may be `None` is modelled
as an `Option`.
-/

namespace FastapiTasks

/-- An entry of the in-memory cache: the stored Python value (`none` models
Python `None`) together with the optional absolute expiry instant
`expires_at`; `none` there means the entry never expires. -/
structure Entry (V : Type) where
  value : Option V
  expiresAt : Option Int

/-- The `Cache` class of `src/cache.py`: its `_store` dict maps a string key
to a `(value, expires_at)` pair; the dict is modelled as a function that
returns `none` on keys not physically present. -/
structure Cache (V : Type) where
  store : String → Option (Entry V)

/-- `Cache.__init__`: the store starts empty. -/
def Cache.empty {V : Type} : Cache V := ⟨fun _ => none⟩

/-- `Cache.set` at clock instant `now`: when a `ttl` is given,
`expires_at = now + ttl` (`datetime.utcnow() + timedelta(seconds=ttl)`),
otherwise `expires_at = None`; the key is overwritten with the new pair. -/
def Cache.set {V : Type} (c : Cache V) (key : String) (value : Option V)
    (ttl : Option Int) (now : Int) : Cache V :=
  ⟨fun k => if k = key then some ⟨value, Option.map (fun t => now + t) ttl⟩
            else c.store k⟩

/-- `Cache.delete`: `self._store.pop(key, None)` — remove the key if
present, never an error. -/
def Cache.delete {V : Type} (c : Cache V) (key : String) : Cache V :=
  ⟨fun k => if k = key then none else c.store k⟩

/-- `Cache.get` at clock instant `now`: `None` when the key is absent; when
the entry carries an expiry and `datetime.utcnow() > expires_at` (strict),
auto-delete the entry and return `None`; otherwise return the stored value.
The result is the Python return value paired with the cache state after the
call. -/
def Cache.get {V : Type} (c : Cache V) (key : String) (now : Int) :
    Option V × Cache V :=
  match c.store key with
  | none => (none, c)
  | some e =>
    match e.expiresAt with
    | none => (e.value, c)
    | some exp => if exp < now then (none, c.delete key) else (e.value, c)

/-- `Cache.clear`: `self._store.clear()` — remove every entry. -/
def Cache.clear {V : Type} (_ : Cache V) : Cache V := Cache.empty

/-- Python `round(x, 2)`; on every price produced below, `x * 100` is an
integer, so the result is exact and no floating-point tie arises. -/
def round2 (x : ℚ) : ℚ := ((round (x * 100) : ℤ) : ℚ) / 100

/-- The product dict built by `fetch_product_from_source` in
`src/cache.py`. -/
structure Product where
  id : Int
  name : String
  price : ℚ
  source : String

/-- `fetch_product_from_source`: dummy product data for `product_id` (the
`asyncio.sleep(1)` has no observable effect on the returned value). -/
def fetch_product_from_source (product_id : Int) : Product :=
  ⟨product_id,
   "Product " ++ toString product_id,
   round2 (100 + (product_id : ℚ) * 1.5),
   "database"⟩

/-- The body returned by the `/products/{product_id}` endpoint: the product
dict with the `from_cache` flag merged in (`{**product, "from_cache": b}`). -/
structure ProductResponse where
  product : Product
  from_cache : Bool

/-- The cache key `f"product:{product_id}"` used by `get_product`. -/
def productKey (product_id : Int) : String := "product:" ++ toString product_id

/-- The `/products/{product_id}` handler `get_product` of `src/cache.py`:
try the cache first; on a hit return the cached dict with
`from_cache = True`; on a miss await `fetch_product_from_source`, store the
result with `ttl = 30`, and return it with `from_cache = False`.  The result
is the response paired with the cache state after the call. -/
def get_product (product_id : Int) (cache : Cache Product) (now : Int) :
    ProductResponse × Cache Product :=
  let r := cache.get (productKey product_id) now
  match r.1 with
  | some p => (⟨p, true⟩, r.2)
  | none =>
    let product := fetch_product_from_source product_id
    (⟨product, false⟩, r.2.set (productKey product_id) (some product) (some 30) now)

/-- `get_product` with the upstream producer abstracted: `Except.error`
models an exception raised by the awaited producer.  The producer is only
reached on a cache miss; when it raises, the exception propagates out of the
handler before the `cache.set` line, so the cache is left exactly as the
initial `cache.get` left it. -/
def get_product_with {ε : Type} (producer : Int → Except ε Product)
    (product_id : Int) (cache : Cache Product) (now : Int) :
    Except ε ProductResponse × Cache Product :=
  let r := cache.get (productKey product_id) now
  match r.1 with
  | some p => (Except.ok ⟨p, true⟩, r.2)
  | none =>
    match producer product_id with
    | Except.error e => (Except.error e, r.2)
    | Except.ok product =>
        (Except.ok ⟨product, false⟩,
         r.2.set (productKey product_id) (some product) (some 30) now)

/-- The request body of `/notify` in `src/notiifcation.py`. -/
structure NotifyRequestModel where
  email : String
  message : String

/-- Python subscript access `request[k]` on a pydantic model instance:
`BaseModel` defines no `__getitem__`, so every subscript raises
`TypeError: NotifyRequestModel object is not subscriptable`. -/
def NotifyRequestModel.getItem (_ : NotifyRequestModel) (_ : String) :
    Except String String :=
  Except.error "TypeError: NotifyRequestModel object is not subscriptable"

/-- The `/notify` handler `email` of `src/notiifcation.py`: it reads
`request["email"]` and `request["message"]` by subscript, schedules
`send_notification` as a background task, and returns the confirmation
dict.  The result is the response body (or the raised exception) paired
with the list of `(email, message)` background tasks scheduled. -/
def email (request : NotifyRequestModel) (tasks : List (String × String)) :
    Except String (String × List (String × String)) :=
  match NotifyRequestModel.getItem request "email" with
  | Except.error e => Except.error e
  | Except.ok em =>
    match NotifyRequestModel.getItem request "message" with
    | Except.error e => Except.error e
    | Except.ok msg =>
        Except.ok ("Notification scheduled", tasks ++ [(em, msg)])

/-- The `RateLimiter` class of `src/rate_limiter.py`: `limit` requests per
`window` seconds (the `timedelta`), and the `requests` dict mapping a
client IP to its `(count, window_start)` pair. -/
structure RateLimiter where
  limit : Int
  window : Int
  requests : String → Option (Int × Int)

/-- `RateLimiter.__init__`: an empty `requests` dict (the module instance
uses `limit=10`, `window_seconds=60`). -/
def RateLimiter.init (limit window : Int) : RateLimiter :=
  ⟨limit, window, fun _ => none⟩

/-- `RateLimiter.check` at clock instant `now` for client `ip`: the first
request from an IP records `(1, now)`; when `elapsed = now - window_start`
reaches the window it resets to `(1, now)`; inside a live window a request
at or beyond the limit raises `HTTPException(429, "Rate limit exceeded")`,
and one within the limit stores `(count + 1, window_start)`. -/
def RateLimiter.check (rl : RateLimiter) (ip : String) (now : Int) :
    Except (Nat × String) RateLimiter :=
  match rl.requests ip with
  | none =>
      Except.ok ⟨rl.limit, rl.window,
        fun k => if k = ip then some (1, now) else rl.requests k⟩
  | some (count, window_start) =>
      if rl.window ≤ now - window_start then
        Except.ok ⟨rl.limit, rl.window,
          fun k => if k = ip then some (1, now) else rl.requests k⟩
      else if rl.limit ≤ count then
        Except.error (429, "Rate limit exceeded")
      else
        Except.ok ⟨rl.limit, rl.window,
          fun k => if k = ip then some (count + 1, window_start) else rl.requests k⟩

/-- C1: on an entry holding a (non-`None`) value and an expiry instant,
`get` at clock instant `now` returns the stored value iff `now` is not
strictly greater than the expiry instant — the check is the strict
comparison `now() > expires_at`, so the entry is valid through its exact
expiry instant and a value whose TTL has passed is never returned. -/
theorem get_strict_expiry {V : Type} (c : Cache V) (k : String) (v : V)
    (exp now : Int) (h : c.store k = some ⟨some v, some exp⟩) :
    (c.get k now).1 = some v ↔ now ≤ exp := by
  simp only [Cache.get, h]
  by_cases hlt : exp < now
  · rw [if_pos hlt]
    constructor
    · intro hcontra
      exact absurd hcontra (by simp)
    · intro hle
      exact absurd hlt (by omega)
  · rw [if_neg hlt]
    constructor
    · intro _
      omega
    · intro _
      rfl

/-- C1 witness: a concrete entry stored at instant 0 with `ttl = 5` is
still returned by `get` at instant 5. -/
theorem get_strict_expiry_witness :
    (((Cache.empty : Cache Int).set "k" (some 7) (some 5) 0).get "k" 5).1
        = some 7
      ↔ (5 : Int) ≤ 5 :=
  get_strict_expiry ((Cache.empty : Cache Int).set "k" (some 7) (some 5) 0)
    "k" 7 5 5 rfl

/-- C2 as stated is false on the code: after `set("k", 1, ttl=0)` at
instant 0, a `get("k")` issued at the same clock instant 0 returns the
stored value, not absent, because the expiry check `now() > expires_at` is
strict. -/
theorem set_zero_ttl_same_instant_counterexample :
    ((((Cache.empty : Cache Int).set "k" (some 1) (some 0) 0).get "k" 0).1
        = some 1)
    ∧ ((((Cache.empty : Cache Int).set "k" (some 1) (some 0) 0).get "k" 0).1
        ≠ none) := by
  refine ⟨rfl, ?_⟩
  rw [show ((((Cache.empty : Cache Int).set "k" (some 1) (some 0) 0).get "k" 0).1
        = some 1) from rfl]
  simp

/-- C2 (amended): `set(k, v, ttl)` with `ttl ≤ 0` produces an entry that is
already expired at the set instant (`expires_at = now + ttl ≤ now`), and
any `get(k)` issued strictly strictly after the clock instant of the set returns absent
and physically deletes the entry; in particular `set(k, v, 0)` followed by
a strictly later `get(k)` returns absent. -/
theorem set_nonpositive_ttl_expired {V : Type} (c : Cache V) (k : String)
    (v : Option V) (ttl t now : Int) (httl : ttl ≤ 0) (hlater : t < now) :
    ((c.set k v (some ttl) t).store k = some ⟨v, some (t + ttl)⟩
      ∧ t + ttl ≤ t)
    ∧ ((c.set k v (some ttl) t).get k now).1 = none
    ∧ (((c.set k v (some ttl) t).get k now).2).store k = none := by
  have h1 : (c.set k v (some ttl) t).store k = some ⟨v, some (t + ttl)⟩ := by
    simp [Cache.set]
  have h2 : (c.set k v (some ttl) t).get k now
      = (none, (c.set k v (some ttl) t).delete k) := by
    simp only [Cache.get, h1]
    rw [if_pos (show t + ttl < now by omega)]
  refine ⟨⟨h1, by omega⟩, by rw [h2], ?_⟩
  rw [h2]
  simp [Cache.delete]

/-- C2 (amended) witness at `ttl = 0`, set instant 0, get instant 1. -/
theorem set_nonpositive_ttl_expired_witness :
    (0 : Int) ≤ 0 ∧ (0 : Int) < 1
    ∧ ((((Cache.empty : Cache Int).set "k" (some 1) (some 0) 0).store "k"
          = some ⟨some 1, some (0 + 0)⟩ ∧ (0 : Int) + 0 ≤ 0)
      ∧ (((Cache.empty : Cache Int).set "k" (some 1) (some 0) 0).get "k" 1).1
          = none
      ∧ ((((Cache.empty : Cache Int).set "k" (some 1) (some 0) 0).get "k" 1).2).store
          "k" = none) :=
  ⟨le_refl 0, by omega,
   set_nonpositive_ttl_expired (Cache.empty : Cache Int) "k" (some 1) 0 0 1
     (le_refl 0) (by omega)⟩

/-- C3: a value stored with no TTL is returned by `get` at every clock
instant, however far in the future — an entry without a TTL never expires
on its own. -/
theorem set_no_ttl_never_expires {V : Type} (c : Cache V) (k : String)
    (v : Option V) (t now : Int) :
    ((c.set k v none t).get k now).1 = v := by
  simp [Cache.set, Cache.get]

/-- C4: `get` on an entry whose expiry instant is in the past returns
absent and physically removes the entry from the store; a repeated `get`
on that key at any instant returns the same absent result and leaves the
cache unchanged (re-deletion never happens and never errors). -/
theorem get_expired_deletes {V : Type} (c : Cache V) (k : String)
    (e : Entry V) (exp now : Int) (h : c.store k = some e)
    (hexp : e.expiresAt = some exp) (hpast : exp < now) :
    (c.get k now).1 = none
    ∧ ((c.get k now).2).store k = none
    ∧ ∀ now2 : Int, ((c.get k now).2).get k now2 = (none, (c.get k now).2) := by
  have hget : c.get k now = (none, c.delete k) := by
    simp only [Cache.get, h, hexp, if_pos hpast]
  refine ⟨by rw [hget], ?_, ?_⟩
  · rw [hget]
    simp [Cache.delete]
  · intro now2
    rw [hget]
    simp [Cache.get, Cache.delete]

/-- C4 witness: a concrete entry with expiry instant 0 read at instant 1
is reported absent, removed, and a second read at instant 2 is a no-op. -/
theorem get_expired_deletes_witness :
    (0 : Int) < 1
    ∧ ((((Cache.empty : Cache Int).set "k" (some 1) (some 0) 0).get "k" 1).1
          = none
      ∧ (((((Cache.empty : Cache Int).set "k" (some 1) (some 0) 0).get "k" 1).2).store
          "k" = none)
      ∧ ∀ now2 : Int,
          ((((Cache.empty : Cache Int).set "k" (some 1) (some 0) 0).get "k" 1).2).get
              "k" now2
            = (none,
               (((Cache.empty : Cache Int).set "k" (some 1) (some 0) 0).get "k" 1).2)) :=
  ⟨by omega,
   get_expired_deletes ((Cache.empty : Cache Int).set "k" (some 1) (some 0) 0)
     "k" ⟨some 1, some 0⟩ 0 1 rfl rfl (by omega)⟩

/-- C5: the read path first consults the cache under the derived key
`product:{id}`: on a hit it returns the cached product marked as coming
from the cache without invoking the upstream producer (the outcome is the
same for every producer); on a miss it invokes the producer, stores the
result via `set` with `ttl = 30`, and returns the produced value marked as
coming from the source. -/
theorem get_product_read_path (product_id : Int) (c : Cache Product)
    (now : Int) :
    (∀ p : Product, (c.get (productKey product_id) now).1 = some p →
      get_product product_id c now
          = (⟨p, true⟩, (c.get (productKey product_id) now).2)
        ∧ ∀ (ε : Type) (producer : Int → Except ε Product),
            get_product_with producer product_id c now
              = (Except.ok ⟨p, true⟩, (c.get (productKey product_id) now).2))
    ∧ ((c.get (productKey product_id) now).1 = none →
      get_product product_id c now
          = (⟨fetch_product_from_source product_id, false⟩,
             ((c.get (productKey product_id) now).2).set
               (productKey product_id)
               (some (fetch_product_from_source product_id)) (some 30) now)) := by
  constructor
  · intro p hp
    constructor
    · simp only [get_product, hp]
    · intro ε producer
      simp only [get_product_with, hp]
  · intro hmiss
    simp only [get_product, hmiss]

/-- C5 witness: on the empty cache (a miss), the handler returns the
fetched product marked `from_cache = False` and caches it with
`ttl = 30`. -/
theorem get_product_read_path_witness :
    ((Cache.empty : Cache Product).get (productKey 1) 0).1 = none
    ∧ get_product 1 (Cache.empty : Cache Product) 0
        = (⟨fetch_product_from_source 1, false⟩,
           (Cache.empty : Cache Product).set (productKey 1)
             (some (fetch_product_from_source 1)) (some 30) 0) :=
  ⟨rfl, (get_product_read_path 1 (Cache.empty : Cache Product) 0).2 rfl⟩

/-- C6 as stated is false on the code: take a key holding an entry that is
already expired at call time and a producer that fails.  The initial
`cache.get` inside the read path lazily deletes the expired entry, so the
failure of the producer is propagated and `set` is never called, yet the cache
state for that key after the call (physically absent) differs from its
state before the call (entry present). -/
theorem get_product_failure_state_counterexample :
    ((get_product_with (fun _ => Except.error "boom") 1
          ((Cache.empty : Cache Product).set (productKey 1)
            (some (fetch_product_from_source 1)) (some 0) 0) 1).1
        = Except.error "boom")
    ∧ (((get_product_with (fun _ => Except.error "boom") 1
          ((Cache.empty : Cache Product).set (productKey 1)
            (some (fetch_product_from_source 1)) (some 0) 0) 1).2).store
          (productKey 1) = none)
    ∧ (((Cache.empty : Cache Product).set (productKey 1)
          (some (fetch_product_from_source 1)) (some 0) 0).store
          (productKey 1)
        = some ⟨some (fetch_product_from_source 1), some (0 + 0)⟩)
    ∧ some (Entry.mk (some (fetch_product_from_source 1)) (some (0 + 0)))
        ≠ (none : Option (Entry Product)) := by
  refine ⟨rfl, rfl, by simp [Cache.set], by simp⟩

/-- C6 (amended): when the producer is invoked (the cache missed) and
fails, the read path propagates the failure of the producer to the caller
unchanged, never reaches `set` (the failed result is not cached), and does
not turn the failure into a successful empty response: the final cache
state is exactly the state left by the initial `get`, which can differ
from the pre-call state at that key only by the lazy deletion of an
already-expired entry. -/
theorem get_product_failure_propagation {ε : Type}
    (producer : Int → Except ε Product) (product_id : Int)
    (c : Cache Product) (now : Int) (e : ε)
    (hmiss : (c.get (productKey product_id) now).1 = none)
    (hfail : producer product_id = Except.error e) :
    get_product_with producer product_id c now
      = (Except.error e, (c.get (productKey product_id) now).2) := by
  simp only [get_product_with, hmiss, hfail]

/-- C6 (amended) witness: a failing producer on the empty cache. -/
theorem get_product_failure_propagation_witness :
    ((Cache.empty : Cache Product).get (productKey 1) 0).1 = none
    ∧ (fun _ : Int => (Except.error "boom" : Except String Product)) 1
        = Except.error "boom"
    ∧ get_product_with (fun _ => Except.error "boom") 1
          (Cache.empty : Cache Product) 0
        = (Except.error "boom", (Cache.empty : Cache Product)) :=
  ⟨rfl, rfl,
   get_product_failure_propagation (fun _ => Except.error "boom") 1
     (Cache.empty : Cache Product) 0 "boom" rfl rfl⟩

/-- C7: `clear` removes all entries unconditionally: afterwards every key
is physically absent and `get` on any key, at any clock instant and
whatever the previous TTL or expiry state, returns absent. -/
theorem clear_removes_all {V : Type} (c : Cache V) (k : String) (now : Int) :
    (c.clear).store k = none ∧ (c.clear).get k now = (none, c.clear) :=
  ⟨rfl, rfl⟩

/-- C8: the `/notify` handler subscripts the pydantic model
(`request["email"]`), which raises a `TypeError` on every request — the
well-formed ones included — so the handler never schedules the background
task and never returns the confirmation. -/
theorem email_always_raises (request : NotifyRequestModel)
    (tasks : List (String × String)) :
    email request tasks
      = Except.error
          "TypeError: NotifyRequestModel object is not subscriptable" := rfl

/-- C9: with an existing `(count, window_start)` record for the client,
`check` resets the record to `(1, now)` exactly when
`now - window_start ≥ window`; inside a live window it raises the 429
rate-limit error when `count ≥ limit`, and otherwise increments the count
by one while leaving `window_start` unchanged. -/
theorem rate_limiter_check_cases (rl : RateLimiter) (ip : String)
    (count window_start now : Int)
    (h : rl.requests ip = some (count, window_start)) :
    (rl.window ≤ now - window_start →
      ∃ rl2 : RateLimiter, rl.check ip now = Except.ok rl2
        ∧ rl2.requests ip = some (1, now)
        ∧ rl2.limit = rl.limit ∧ rl2.window = rl.window)
    ∧ (now - window_start < rl.window → rl.limit ≤ count →
      rl.check ip now = Except.error (429, "Rate limit exceeded"))
    ∧ (now - window_start < rl.window → count < rl.limit →
      ∃ rl2 : RateLimiter, rl.check ip now = Except.ok rl2
        ∧ rl2.requests ip = some (count + 1, window_start)
        ∧ rl2.limit = rl.limit ∧ rl2.window = rl.window) := by
  refine ⟨?_, ?_, ?_⟩
  · intro hreset
    refine ⟨⟨rl.limit, rl.window,
        fun k => if k = ip then some (1, now) else rl.requests k⟩,
      ?_, by simp, rfl, rfl⟩
    simp only [RateLimiter.check, h]
    rw [if_pos hreset]
  · intro hlive hhit
    simp only [RateLimiter.check, h]
    rw [if_neg (by omega), if_pos hhit]
  · intro hlive hroom
    refine ⟨⟨rl.limit, rl.window,
        fun k => if k = ip then some (count + 1, window_start)
                 else rl.requests k⟩,
      ?_, by simp, rfl, rfl⟩
    simp only [RateLimiter.check, h]
    rw [if_neg (by omega), if_neg (by omega)]

/-- C9 witness: a client with record `(3, 0)` under `limit = 10`,
`window = 60`, checked at instant 10: the window is live, the count is
below the limit, so the record becomes `(4, 0)`. -/
theorem rate_limiter_check_cases_witness :
    (10 : Int) - 0 < 60 ∧ (3 : Int) < 10
    ∧ ∃ rl2 : RateLimiter,
        (RateLimiter.mk 10 60
            (fun k => if k = "1.2.3.4" then some (3, 0) else none)).check
            "1.2.3.4" 10
          = Except.ok rl2
        ∧ rl2.requests "1.2.3.4" = some (3 + 1, 0)
        ∧ rl2.limit = 10 ∧ rl2.window = 60 :=
  ⟨by omega, by omega,
   (rate_limiter_check_cases
      (RateLimiter.mk 10 60
        (fun k => if k = "1.2.3.4" then some (3, 0) else none))
      "1.2.3.4" 3 0 10 rfl).2.2 (by decide) (by decide)⟩

/-- C10: a `None` value cached with no TTL is indistinguishable from a
miss at the `get` interface: `get` returns `None`, exactly as it does on a
key that was never set, and the read path therefore takes its miss branch,
re-invokes the upstream producer and re-stores the produced value. -/
theorem cached_none_is_miss (c : Cache Product) (product_id : Int)
    (t now : Int) :
    ((c.set (productKey product_id) none none t).get
        (productKey product_id) now).1 = none
    ∧ ((Cache.empty : Cache Product).get (productKey product_id) now).1 = none
    ∧ get_product product_id (c.set (productKey product_id) none none t) now
        = (⟨fetch_product_from_source product_id, false⟩,
           (c.set (productKey product_id) none none t).set
             (productKey product_id)
             (some (fetch_product_from_source product_id)) (some 30) now) := by
  have hmiss : ((c.set (productKey product_id) none none t).get
      (productKey product_id) now).1 = none := by
    simp [Cache.set, Cache.get]
  have hsame : (c.set (productKey product_id) none none t).get
      (productKey product_id) now
      = (none, c.set (productKey product_id) none none t) := by
    simp [Cache.set, Cache.get]
  refine ⟨hmiss, rfl, ?_⟩
  simp only [get_product, hsame]

end FastapiTasks
